import Mathlib

/-!
# Verification of the chatbot request-coordination layer

Shallow embedding of the public-facing request-coordination layer of the
chatbot repository: the fixed-window rate limiter (`server.js`
`rateLimitMiddleware` and the Cloudflare-worker `checkRateLimit`), the
public-config read-through cache, the chat endpoint's session upsert and
no-documents branch, the feedback endpoint, input sanitization, and the
widget's client-side session state machine.

Times are modelled as natural numbers (epoch milliseconds for the server-side
rate limiter and the client state machine, epoch seconds for the Cloudflare
KV cache).  Stores are modelled as association lists; fallible store
operations are modelled with `Except`.
-/

namespace ChatbotVerif

/-! ## Rate limiter (`server.js`, `rateLimitMiddleware`)

`const rateLimitMiddleware = (req, res, next) => { ... }` keeps a
`Map` from client IP to `{ count, resetTime }`.  The window length and the
maximum request count are the constants `RATE_LIMIT_WINDOW = 60 * 1000` and
`RATE_LIMIT_MAX_REQUESTS = 20`; we keep them as parameters `window` / `limit`
of the step function (the Cloudflare variant `rateLimitMiddleware(limit,
window)` is parametric in exactly this way). -/

/-- One entry of `rateLimitMap`: the JS object `{ count, resetTime }`. -/
structure RateEntry where
  count : Nat
  resetTime : Nat
deriving Repr, DecidableEq

/-- The `rateLimitMap`, modelled as an association list from IP to entry. -/
abbrev RateMap := List (String × RateEntry)

/-- `rateLimitMap.get(ip)` (returns `none` when `!rateLimitMap.has(ip)`). -/
def lookupEntry (m : RateMap) (k : String) : Option RateEntry :=
  match m with
  | [] => none
  | (k', e) :: rest => if k' = k then some e else lookupEntry rest k

/-- `rateLimitMap.set(ip, e)`: replaces the entry for `k`, or appends it. -/
def setEntry (m : RateMap) (k : String) (e : RateEntry) : RateMap :=
  match m with
  | [] => [(k, e)]
  | (k', e') :: rest => if k' = k then (k, e) :: rest else (k', e') :: setEntry rest k e

/-- Outcome of one pass through `rateLimitMiddleware`: whether `next()` was
called, and the `retryAfter` value (in seconds) of the 429 response when it
was not. -/
structure RateResult where
  allowed : Bool
  retryAfter : Option Nat
deriving Repr, DecidableEq

/-- `Math.ceil(x / 1000)` on natural `x`. -/
def ceilDiv1000 (n : Nat) : Nat := (n + 999) / 1000

/-- One execution of `rateLimitMiddleware` for a request from `ip` at time
`now` (milliseconds), with window `window` ms and limit `limit`:

* no entry: `rateLimitMap.set(ip, { count: 1, resetTime: now + WINDOW })`,
  admit;
* `now > limit.resetTime`: reset the window the same way, admit;
* `limit.count >= MAX_REQUESTS`: respond 429 with
  `retryAfter = Math.ceil((limit.resetTime - now) / 1000)`;
* otherwise `limit.count++`, admit. -/
def rateLimitStep (limit window : Nat) (m : RateMap) (ip : String) (now : Nat) :
    RateResult × RateMap :=
  match lookupEntry m ip with
  | none => (⟨true, none⟩, setEntry m ip ⟨1, now + window⟩)
  | some e =>
    if e.resetTime < now then
      (⟨true, none⟩, setEntry m ip ⟨1, now + window⟩)
    else if limit ≤ e.count then
      (⟨false, some (ceilDiv1000 (e.resetTime - now))⟩, m)
    else
      (⟨true, none⟩, setEntry m ip ⟨e.count + 1, e.resetTime⟩)

/-- Serialized requests from one client: run `rateLimitMiddleware` on each
request time in order, collecting the per-request outcomes. -/
def runRequests (limit window : Nat) (ip : String) (m : RateMap) :
    List Nat → List RateResult
  | [] => []
  | t :: ts =>
    let s := rateLimitStep limit window m ip t
    s.1 :: runRequests limit window ip s.2 ts

/-! ## Client identity fallback

part_002: `const ip = c.req.header('cf-connecting-ip') || 'unknown'`;
server.js: `const ip = req.ip || req.connection.remoteAddress || 'unknown'`. -/

/-- JS `a || b` on an optional string: `undefined` and `""` are falsy. -/
def jsOrString (a : Option String) (b : String) : String :=
  match a with
  | none => b
  | some s => if s = "" then b else s

/-- The Cloudflare worker's rate-limit identity for a request. -/
def workerClientKey (cfConnectingIp : Option String) : String :=
  jsOrString cfConnectingIp "unknown"

/-- The express server's rate-limit identity for a request. -/
def expressClientKey (reqIp remoteAddress : Option String) : String :=
  jsOrString reqIp (jsOrString remoteAddress "unknown")

/-! ## Generic string-keyed association store

Used for the Cloudflare KV namespace `CHATBOT_CACHE` and the `chatbots`
table of the relational store. -/

/-- `store.get(k)`. -/
def lookupKey {α : Type} (m : List (String × α)) (k : String) : Option α :=
  match m with
  | [] => none
  | (k', v) :: rest => if k' = k then some v else lookupKey rest k

/-- `store.put(k, v)`: replaces the binding for `k`, or appends it. -/
def setKey {α : Type} (m : List (String × α)) (k : String) (v : α) : List (String × α) :=
  match m with
  | [] => [(k, v)]
  | (k', v') :: rest => if k' = k then (k, v) :: rest else (k', v') :: setKey rest k v

/-- `store.delete(k)`. -/
def deleteKey {α : Type} (m : List (String × α)) (k : String) : List (String × α) :=
  match m with
  | [] => []
  | (k', v) :: rest => if k' = k then deleteKey rest k else (k', v) :: deleteKey rest k

/-! ## Worker rate limiter (part_002, `checkRateLimit` and
`rateLimitMiddleware`)

`checkRateLimit(c, key, limit, window)` keeps its count in the KV namespace
under `rate:<key>`, re-putting the incremented count with
`expirationTtl: window` on every admission; the middleware's rejection is
`c.json({ error: 'Rate limit exceeded. Please try again later.' }, 429)` —
a body with a single `error` field and no retry-after header or field. -/

/-- One stored worker counter: the count string under `rate:<key>` together
with the absolute instant at which its `expirationTtl` elapses. -/
structure WorkerRateEntry where
  count : Nat
  expiresAt : Nat
deriving Repr, DecidableEq

abbrev WorkerStore := List (String × WorkerRateEntry)

/-- part_002 `checkRateLimit` against a working KV store at time `now`
(seconds): read `rate:<key>` (absent once its TTL elapsed), reject when the
count has reached the limit, otherwise put the incremented count back with
`expirationTtl: window`. -/
def workerCheckRateLimitStep (limit window : Nat) (st : WorkerStore) (key : String)
    (now : Nat) : Bool × WorkerStore :=
  let rateLimitKey := "rate:" ++ key
  let current : Option Nat :=
    match lookupKey st rateLimitKey with
    | some e => if now < e.expiresAt then some e.count else none
    | none => none
  let count := current.getD 0
  if limit ≤ count then (false, st)
  else (true, setKey st rateLimitKey ⟨count + 1, now + window⟩)

/-- The JSON body of the worker middleware's 429 reply (part_002 line 318),
as its list of fields: a single `error` field — no retry-after. -/
def workerRejected429Body : List (String × String) :=
  [("error", "Rate limit exceeded. Please try again later.")]

/-- Outcome of one pass through part_002's `rateLimitMiddleware`: `next()`
was called, or the 429 JSON reply with the given body was returned. -/
inductive WorkerAdmit
  | next
  | rejected429 (body : List (String × String))
deriving Repr, DecidableEq

/-- One pass of part_002's `rateLimitMiddleware(limit, window)`: resolve the
identity (`cf-connecting-ip || 'unknown'`), run `checkRateLimit`, and either
continue or return the 429 reply. -/
def workerRateLimitMiddleware (limit window : Nat) (st : WorkerStore)
    (cfConnectingIp : Option String) (now : Nat) : WorkerAdmit × WorkerStore :=
  let ip := workerClientKey cfConnectingIp
  let s := workerCheckRateLimitStep limit window st ip now
  if s.1 then (.next, s.2) else (.rejected429 workerRejected429Body, s.2)

/-- Serialized requests through part_002's middleware, collecting the
per-request outcomes. -/
def runWorkerRequests (limit window : Nat) (cfConnectingIp : Option String)
    (st : WorkerStore) : List Nat → List WorkerAdmit
  | [] => []
  | t :: ts =>
    let s := workerRateLimitMiddleware limit window st cfConnectingIp t
    s.1 :: runWorkerRequests limit window cfConnectingIp s.2 ts

/-! ## Config cache (part_002: `getFromCache` / `setCache` /
`GET /public/chatbots/:id` / `PUT /api/chatbots/:id`)

The cache is the Cloudflare KV namespace `CHATBOT_CACHE`: `put` takes an
`expirationTtl` in seconds after which the key is gone; we model this with an
absolute `expiresAt` checked at read time.  The flag `up` models store
availability: when `up = false` every KV operation throws, which
`getFromCache` catches by returning `null` and `setCache` catches by
skipping the write. -/

/-- The public, cacheable view of a chatbot served by
`GET /public/chatbots/:id`. -/
structure PubConfig where
  name : String
  color : String
  welcomeMessage : String
deriving Repr, DecidableEq

/-- The chatbot row's public fields, as selected by
`.select('name,color,welcome_message,is_deployed')`. -/
structure ChatbotRow where
  name : String
  color : String
  welcome_message : String
  is_deployed : Bool
deriving Repr, DecidableEq

/-- One cached value together with its KV expiration instant. -/
structure CacheEntry where
  value : PubConfig
  expiresAt : Nat
deriving Repr, DecidableEq

abbrev CacheStore := List (String × CacheEntry)

/-- The `chatbots` table, keyed by chatbot id. -/
abbrev ChatbotDb := String → Option ChatbotRow

/-- `getFromCache(c, key)` read at time `now` (seconds): returns the cached
value while unexpired; a thrown store error (`up = false`) is caught and
`null` is returned. -/
def getFromCache (up : Bool) (st : CacheStore) (k : String) (now : Nat) : Option PubConfig :=
  if up then
    match lookupKey st k with
    | some e => if now < e.expiresAt then some e.value else none
    | none => none
  else none

/-- `setCache(c, key, value, ttl)` at time `now`: KV put with
`expirationTtl = ttl`; a thrown store error (`up = false`) is caught and the
write is skipped. -/
def setCache (up : Bool) (st : CacheStore) (k : String) (v : PubConfig) (ttl now : Nat) :
    CacheStore :=
  if up then setKey st k ⟨v, now + ttl⟩ else st

/-- What the source-of-truth store says for a public-config query: 404 when
the chatbot does not exist or is not deployed, its public fields otherwise. -/
def dbAnswer (db : ChatbotDb) (id : String) : Except Nat PubConfig :=
  match db id with
  | none => .error 404
  | some row =>
    if row.is_deployed then .ok ⟨row.name, row.color, row.welcome_message⟩
    else .error 404

/-- `GET /public/chatbots/:id` at time `now`: try the cache under key
`chatbot:<id>`; on a miss query the chatbot row, answer 404 unless it exists
and is deployed, cache the public fields for 60 seconds and return them. -/
def publicChatbotConfig (up : Bool) (st : CacheStore) (db : ChatbotDb) (id : String)
    (now : Nat) : Except Nat PubConfig × CacheStore :=
  let cacheKey := "chatbot:" ++ id
  match getFromCache up st cacheKey now with
  | some data => (.ok data, st)
  | none =>
    match db id with
    | none => (.error 404, st)
    | some row =>
      if row.is_deployed then
        let data : PubConfig := ⟨row.name, row.color, row.welcome_message⟩
        (.ok data, setCache up st cacheKey data 60 now)
      else (.error 404, st)

/-- The two externally visible effects of `PUT /api/chatbots/:id`, in
program order: the supabase `update` commits, then
`CHATBOT_CACHE.delete('chatbot:' + id)` runs. -/
inductive PutChatbotStep
  | dbWrite
  | cacheDelete
deriving Repr, DecidableEq, BEq

/-- Program order of the effects of `PUT /api/chatbots/:id`. -/
def putChatbotEffectOrder : List PutChatbotStep :=
  [PutChatbotStep.dbWrite, PutChatbotStep.cacheDelete]

/-- Combined state effect of `PUT /api/chatbots/:id`: write the row, delete
the cache entry. -/
def updateChatbot (st : CacheStore) (db : ChatbotDb) (id : String) (row : ChatbotRow) :
    ChatbotDb × CacheStore :=
  (fun i => if i = id then some row else db i, deleteKey st ("chatbot:" ++ id))

/-! ## Worker rate limiter failure policy (part_002, `checkRateLimit`)

`checkRateLimit(c, key, limit, window)` wraps its KV `get`/`put` in a
`try`/`catch` whose catch branch returns `true` ("Allow on error").  We pass
the outcomes of the two store operations explicitly: `.error` models a
thrown store exception. -/

/-- `checkRateLimit` given the result of `CHATBOT_CACHE.get` (a stored count,
if any) and of `CHATBOT_CACHE.put`.  Returns whether the request is
admitted. -/
def checkRateLimit (limit : Nat) (getRes : Except String (Option Nat))
    (putRes : Except String Unit) : Bool :=
  match getRes with
  | .error _ => true
  | .ok current =>
    let count := current.getD 0
    if limit ≤ count then false
    else
      match putRes with
      | .error _ => true
      | .ok _ => true

/-! ## Input sanitization (part_002, `sanitizeInput`)

```
return input
  .replace(/[<>"'&]/g, (match) => entities[match])
  .trim()
  .slice(0, 1000);
```
-/

/-- The entity map of `sanitizeInput`, per character (character codes 60 `<`,
62 `>`, 34 double quote, 39 apostrophe, 38 `&`). -/
def escapeChar (c : Char) : List Char :=
  if c = Char.ofNat 60 then "&lt;".data
  else if c = Char.ofNat 62 then "&gt;".data
  else if c = Char.ofNat 34 then "&quot;".data
  else if c = Char.ofNat 39 then "&#x27;".data
  else if c = Char.ofNat 38 then "&amp;".data
  else [c]

/-- `.trim()`: strip whitespace from both ends. -/
def trimChars (l : List Char) : List Char :=
  ((l.dropWhile Char.isWhitespace).reverse.dropWhile Char.isWhitespace).reverse

/-- part_002 `sanitizeInput`: entity-escape `<>"'&`, trim, then
`.slice(0, 1000)`. -/
def sanitizeInput (s : String) : String :=
  String.mk ((trimChars (s.data.flatMap escapeChar)).take 1000)

/-! ## Session ledger (`chat_sessions`, `conversations`; schema from the
SQL in `widget.js` lines 315–395) -/

/-- One row of `chat_sessions`. -/
structure SessionRow where
  chatbot_id : String
  session_id : String
  ip_address : Option String
  user_agent : Option String
  started_at : Nat
  ended_at : Option Nat
  message_count : Nat
  satisfaction_rating : Option Int
deriving Repr, DecidableEq

/-- One row of `conversations` (columns used by the chat endpoint). -/
structure ConvRow where
  chatbot_id : String
  session_id : String
  message : Option String
  response : Option String
  is_user_message : Bool
  ip_address : Option String
  user_agent : Option String
  response_time_ms : Option Nat
deriving Repr, DecidableEq

/-- The chat endpoint's session upsert:
`supabase.from('chat_sessions').upsert({chatbot_id, session_id, ip_address,
user_agent, started_at}, { onConflict: 'session_id' })` — with the client's
default merge behaviour this is `INSERT ... ON CONFLICT (session_id) DO
UPDATE` of the supplied columns; `ended_at`, `message_count` and
`satisfaction_rating` are not supplied, so they keep their values on
conflict and take their defaults (`NULL`, `0`, `NULL`) on insert. -/
def upsertSession (tbl : List SessionRow) (chatbotId sid : String)
    (ip ua : Option String) (now : Nat) : List SessionRow :=
  if tbl.any (fun r => r.session_id == sid) then
    tbl.map fun r =>
      if r.session_id == sid then
        { r with chatbot_id := chatbotId, ip_address := ip, user_agent := ua,
                 started_at := now }
      else r
  else
    tbl ++ [{ chatbot_id := chatbotId, session_id := sid, ip_address := ip, user_agent := ua,
              started_at := now, ended_at := none, message_count := 0,
              satisfaction_rating := none }]

/-- The SQL function `increment_session_messages(session_id_param)`:
`UPDATE chat_sessions SET message_count = message_count + 1 WHERE
session_id = session_id_param`. -/
def increment_session_messages (tbl : List SessionRow) (sid : String) : List SessionRow :=
  tbl.map fun r =>
    if r.session_id == sid then { r with message_count := r.message_count + 1 } else r

/-- The fixed apology returned when a chatbot has no documents (part_002
line 943; the apostrophe is assembled explicitly). -/
def apologyMessage : String :=
  "I apologize, but I don" ++ String.mk [Char.ofNat 39] ++
    "t have enough information to answer your question at the moment. Please contact our support team for assistance."

/-- The JSON body of the chat endpoint's reply. -/
structure ChatResponse where
  status : Nat
  response : Option String
  sessionId : Option String
deriving Repr, DecidableEq

/-- part_002 `POST /api/chat` after the rate-limit middleware: validate,
sanitize, resolve the session id (`sessionId || generated`), upsert the
session, log the user message, then either the no-documents branch (fixed
apology, bot row logged, no message-count increment) or the with-documents
branch (completion text `llmText`, bot row logged,
`increment_session_messages` rpc).  `genSid` stands for the generated
`session_<timestamp>_<random>` id, `docs` for the chatbot's document
contents, `elapsed` for `Date.now() - startTime`. -/
def chatHandler (sessions : List SessionRow) (convs : List ConvRow) (docs : List String)
    (chatbotId message : String) (sessionIdParam : Option String) (genSid : String)
    (ip ua : Option String) (now elapsed : Nat) (llmText : String) :
    ChatResponse × List SessionRow × List ConvRow :=
  if chatbotId = "" ∨ message = "" then
    (⟨400, none, none⟩, sessions, convs)
  else
    let sanitizedMessage := sanitizeInput message
    if 500 < sanitizedMessage.length then
      (⟨400, none, none⟩, sessions, convs)
    else
      let currentSessionId := jsOrString sessionIdParam genSid
      let sessions1 := upsertSession sessions chatbotId currentSessionId ip ua now
      let convs1 := convs ++
        [⟨chatbotId, currentSessionId, some sanitizedMessage, none, true, ip, ua, none⟩]
      if docs.isEmpty then
        let convs2 := convs1 ++
          [⟨chatbotId, currentSessionId, none, some apologyMessage, false, none, none,
            some elapsed⟩]
        (⟨200, some apologyMessage, some currentSessionId⟩, sessions1, convs2)
      else
        let convs2 := convs1 ++
          [⟨chatbotId, currentSessionId, none, some llmText, false, none, none, some elapsed⟩]
        let sessions2 := increment_session_messages sessions1 currentSessionId
        (⟨200, some llmText, some currentSessionId⟩, sessions2, convs2)

/-- part_002 `POST /api/chat/feedback`: reject unless `sessionId` is truthy
and `0 ≤ rating ≤ 5`; otherwise set `ended_at = now` and, only when the
rating is in `[1,5]`, `satisfaction_rating = rating`, on every
`chat_sessions` row with the given session id. -/
def feedbackHandler (tbl : List SessionRow) (sessionId : String) (rating : Int)
    (now : Nat) : Nat × List SessionRow :=
  if sessionId = "" ∨ rating < 0 ∨ 5 < rating then (400, tbl)
  else
    (200, tbl.map fun r =>
      if r.session_id == sessionId then
        if 1 ≤ rating ∧ rating ≤ 5 then
          { r with ended_at := some now, satisfaction_rating := some rating }
        else
          { r with ended_at := some now }
      else r)

/-! ## Widget client session state machine (`/widget.js` in part_002) -/

/-- widget: `const sessionTimeout = 30 * 60 * 1000`. -/
def sessionTimeout : Nat := 30 * 60 * 1000

/-- JS truthiness of a nullable string (`null` and `""` are falsy). -/
def jsTruthyStr : Option String → Bool
  | none => false
  | some s => !(s == "")

/-- The widget's session state: `currentSessionId`, the persisted
`chatbot_session_time_<id>` value, and the `expirationShown` flag. -/
structure ClientState where
  currentSessionId : Option String
  lastActivity : Option Nat
  expirationShown : Bool
deriving Repr, DecidableEq

/-- widget `isSessionValid()`: false with no recorded activity, otherwise
`Date.now() - lastActivity < sessionTimeout`. -/
def isSessionValid (st : ClientState) (now : Nat) : Bool :=
  match st.lastActivity with
  | none => false
  | some t => now - t < sessionTimeout

/-- The body of the widget's 60-second `setInterval` expiry check: when a
session id is held, it is no longer valid and the notice was not yet shown,
clear the persisted record and the in-memory id. -/
def expiryTick (st : ClientState) (now : Nat) : ClientState :=
  if jsTruthyStr st.currentSessionId && !isSessionValid st now && !st.expirationShown then
    { currentSessionId := none, lastActivity := none, expirationShown := true }
  else st

/-- The `chat_sessions` rows carrying a given session id. -/
def sessionRows (tbl : List SessionRow) (sid : String) : List SessionRow :=
  tbl.filter (fun r => r.session_id == sid)

/-! ## Theorems: rate limiter (C1, C7, C10) -/

theorem lookupEntry_setEntry (m : RateMap) (k : String) (e : RateEntry) :
    lookupEntry (setEntry m k e) k = some e := by
  induction m with
  | nil => simp [setEntry, lookupEntry]
  | cons he rest ih =>
    obtain ⟨k', e'⟩ := he
    by_cases h : k' = k <;> simp [setEntry, lookupEntry, h, ih]

theorem ceilDiv1000_pos {n : Nat} (h : 0 < n) : 0 < ceilDiv1000 n := by
  unfold ceilDiv1000
  have : (1 : Nat) ≤ (n + 999) / 1000 := by
    rw [Nat.le_div_iff_mul_le (by norm_num)]
    omega
  omega

theorem lookupKey_setKey {α : Type} (m : List (String × α)) (k : String) (v : α) :
    lookupKey (setKey m k v) k = some v := by
  induction m with
  | nil => simp [setKey, lookupKey]
  | cons hd rest ih =>
    obtain ⟨k', v'⟩ := hd
    by_cases h : k' = k <;> simp [setKey, lookupKey, h, ih]

theorem lookupKey_deleteKey {α : Type} (m : List (String × α)) (k : String) :
    lookupKey (deleteKey m k) k = none := by
  induction m with
  | nil => simp [deleteKey, lookupKey]
  | cons hd rest ih =>
    obtain ⟨k', v'⟩ := hd
    by_cases h : k' = k <;> simp [deleteKey, lookupKey, h, ih]

/-- Invariant run of `rateLimitMiddleware` inside one window: starting from a
map whose entry for `ip` has count `c` and reset time `t0 + window`, with all
request times strictly before the reset time, request `i` is admitted exactly
when `c + i < limit`, and every rejected request carries a positive
`retryAfter`. -/
theorem runRequests_spec (limit window : Nat) (ip : String) (t0 : Nat) :
    ∀ (ts : List Nat) (c : Nat) (m : RateMap),
      lookupEntry m ip = some ⟨c, t0 + window⟩ →
      (∀ t ∈ ts, t < t0 + window) →
      ∀ i (h : i < (runRequests limit window ip m ts).length),
        (((runRequests limit window ip m ts).get ⟨i, h⟩).allowed = true ↔ c + i < limit) ∧
        (limit ≤ c + i →
          ∃ r, ((runRequests limit window ip m ts).get ⟨i, h⟩).retryAfter = some r ∧ 0 < r) := by
  intro ts
  induction ts with
  | nil => intro c m _ _ i h; simp [runRequests] at h
  | cons t ts ih =>
    intro c m hlook hin i h
    have ht : t < t0 + window := hin t (by simp)
    have hts : ∀ u ∈ ts, u < t0 + window := fun u hu => hin u (by simp [hu])
    by_cases hc : limit ≤ c
    · -- rejection regime: the counter stays at `c ≥ limit`
      have hstep : rateLimitStep limit window m ip t =
          (⟨false, some (ceilDiv1000 (t0 + window - t))⟩, m) := by
        simp [rateLimitStep, hlook, Nat.not_lt.mpr (Nat.le_of_lt ht), hc]
      match i with
      | 0 =>
        refine ⟨by simp [runRequests, hstep]; omega, fun _ => ?_⟩
        refine ⟨ceilDiv1000 (t0 + window - t), by simp [runRequests, hstep], ?_⟩
        exact ceilDiv1000_pos (by omega)
      | i + 1 =>
        have h' : i < (runRequests limit window ip m ts).length := by
          have := h
          simp [runRequests, hstep] at this ⊢
          omega
        have := ih c m hlook hts i h'
        constructor
        · have hiff := this.1
          constructor
          · intro hall
            exact absurd (hiff.mp (by simpa [runRequests, hstep] using hall)) (by omega)
          · intro hlt; omega
        · intro _
          obtain ⟨r, hr, hrpos⟩ := this.2 (by omega)
          exact ⟨r, by simpa [runRequests, hstep] using hr, hrpos⟩
    · -- admission regime: the counter increments from `c < limit` to `c + 1`
      push_neg at hc
      have hstep : rateLimitStep limit window m ip t =
          (⟨true, none⟩, setEntry m ip ⟨c + 1, t0 + window⟩) := by
        simp [rateLimitStep, hlook, Nat.not_lt.mpr (Nat.le_of_lt ht), Nat.not_le.mpr hc]
      match i with
      | 0 =>
        refine ⟨by simp [runRequests, hstep]; omega, fun hle => ?_⟩
        omega
      | i + 1 =>
        have h' : i < (runRequests limit window ip (setEntry m ip ⟨c + 1, t0 + window⟩) ts).length := by
          have := h
          simp [runRequests, hstep] at this ⊢
          omega
        have := ih (c + 1) (setEntry m ip ⟨c + 1, t0 + window⟩)
          (lookupEntry_setEntry m ip ⟨c + 1, t0 + window⟩) hts i h'
        constructor
        · have hiff := this.1
          constructor
          · intro hall
            have := hiff.mp (by simpa [runRequests, hstep] using hall)
            omega
          · intro hlt
            have := hiff.mpr (by omega)
            simpa [runRequests, hstep] using this
        · intro hle
          obtain ⟨r, hr, hrpos⟩ := this.2 (by omega)
          exact ⟨r, by simpa [runRequests, hstep] using hr, hrpos⟩

/-- Invariant run of part_002's `rateLimitMiddleware` inside one window:
starting from a store whose counter for the client has count `c` and expires
no earlier than `t0 + window`, with all request times in `[t0, t0 + window)`,
request `i` calls `next()` exactly when `c + i < limit` and otherwise returns
the 429 reply whose body is the bare error object. -/
theorem runWorkerRequests_spec (limit window : Nat) (cfIp : Option String) (t0 : Nat) :
    ∀ (ts : List Nat) (c e : Nat) (st : WorkerStore),
      lookupKey st ("rate:" ++ workerClientKey cfIp) = some ⟨c, e⟩ →
      t0 + window ≤ e →
      (∀ t ∈ ts, t0 ≤ t ∧ t < t0 + window) →
      ∀ i (h : i < (runWorkerRequests limit window cfIp st ts).length),
        (runWorkerRequests limit window cfIp st ts).get ⟨i, h⟩
          = (if c + i < limit then WorkerAdmit.next
             else WorkerAdmit.rejected429 workerRejected429Body) := by
  intro ts
  induction ts with
  | nil => intro c e st _ _ _ i h; simp [runWorkerRequests] at h
  | cons t ts ih =>
    intro c e st hlook he hin i h
    have ht0 : t0 ≤ t := (hin t (by simp)).1
    have ht : t < t0 + window := (hin t (by simp)).2
    have hts : ∀ u ∈ ts, t0 ≤ u ∧ u < t0 + window := fun u hu => hin u (by simp [hu])
    have hlive : t < e := by omega
    by_cases hc : limit ≤ c
    · -- rejection regime: the counter stays at `c ≥ limit`, no put
      have hstep : workerRateLimitMiddleware limit window st cfIp t =
          (.rejected429 workerRejected429Body, st) := by
        simp [workerRateLimitMiddleware, workerCheckRateLimitStep, hlook, hlive, hc]
      match i with
      | 0 =>
        have hhead : (runWorkerRequests limit window cfIp st (t :: ts)).get ⟨0, h⟩
            = WorkerAdmit.rejected429 workerRejected429Body := by
          simp [runWorkerRequests, hstep]
        rw [hhead, if_neg (by omega)]
      | i + 1 =>
        have h' : i < (runWorkerRequests limit window cfIp st ts).length := by
          have := h
          simp [runWorkerRequests, hstep] at this ⊢
          omega
        have hrec := ih c e st hlook he hts i h'
        have hshift : ((runWorkerRequests limit window cfIp st (t :: ts)).get ⟨i + 1, h⟩)
            = (runWorkerRequests limit window cfIp st ts).get ⟨i, h'⟩ := by
          simp [runWorkerRequests, hstep]
        rw [hshift, hrec, if_neg (by omega), if_neg (by omega)]
    · -- admission regime: increment and refresh the TTL
      push_neg at hc
      have hstep : workerRateLimitMiddleware limit window st cfIp t =
          (.next, setKey st ("rate:" ++ workerClientKey cfIp) ⟨c + 1, t + window⟩) := by
        simp [workerRateLimitMiddleware, workerCheckRateLimitStep, hlook, hlive,
          Nat.not_le.mpr hc]
      match i with
      | 0 =>
        have hhead : (runWorkerRequests limit window cfIp st (t :: ts)).get ⟨0, h⟩
            = WorkerAdmit.next := by
          simp [runWorkerRequests, hstep]
        rw [hhead, if_pos (by omega)]
      | i + 1 =>
        have h' : i < (runWorkerRequests limit window cfIp
            (setKey st ("rate:" ++ workerClientKey cfIp) ⟨c + 1, t + window⟩) ts).length := by
          have := h
          simp [runWorkerRequests, hstep] at this ⊢
          omega
        have hrec := ih (c + 1) (t + window)
          (setKey st ("rate:" ++ workerClientKey cfIp) ⟨c + 1, t + window⟩)
          (lookupKey_setKey st ("rate:" ++ workerClientKey cfIp) ⟨c + 1, t + window⟩)
          (by omega) hts i h'
        have hshift : ((runWorkerRequests limit window cfIp st (t :: ts)).get ⟨i + 1, h⟩)
            = (runWorkerRequests limit window cfIp
                (setKey st ("rate:" ++ workerClientKey cfIp) ⟨c + 1, t + window⟩) ts).get
                ⟨i, h'⟩ := by
          simp [runWorkerRequests, hstep]
        rw [hshift, hrec]
        by_cases hlt : c + 1 + i < limit
        · rw [if_pos hlt, if_pos (by omega)]
        · rw [if_neg hlt, if_neg (by omega)]

/-- C1 (amended): For every sequence of N serialized admit requests from the
same identity and route class within one window of length W with limit L,
exactly the first L are admitted and each of the remaining N − L is rejected
with HTTP 429; in the server.js implementation each rejection carries a
positive retry-after value, while in the part_002 worker implementation the
429 reply's JSON body has only an `error` field — no retry-after value.
(Both implementations key the counter by client IP alone; for requests of
one identity and one route class this is the counter the claim describes.
"Within one window" is read as: all request times lie in `[t0, t0 + W)`
where `t0` is the first request's time and the client has no live counter at
`t0`.) -/
theorem rateLimit_first_L_admitted_rest_rejected
    (limit window : Nat) (ip : String) (m : RateMap) (t0 : Nat) (rest : List Nat)
    (cfIp : Option String) (wst : WorkerStore)
    (hfresh : lookupEntry m ip = none) (hlimit : 0 < limit)
    (hin : ∀ t ∈ rest, t0 ≤ t ∧ t < t0 + window)
    (hwfresh : lookupKey wst ("rate:" ++ workerClientKey cfIp) = none) :
    (∀ i (h : i < (runRequests limit window ip m (t0 :: rest)).length),
      (((runRequests limit window ip m (t0 :: rest)).get ⟨i, h⟩).allowed = true ↔ i < limit) ∧
      (limit ≤ i →
        ∃ r, ((runRequests limit window ip m (t0 :: rest)).get ⟨i, h⟩).retryAfter = some r ∧
          0 < r)) ∧
    (∀ i (h : i < (runWorkerRequests limit window cfIp wst (t0 :: rest)).length),
      (runWorkerRequests limit window cfIp wst (t0 :: rest)).get ⟨i, h⟩
        = (if i < limit then WorkerAdmit.next
           else WorkerAdmit.rejected429 workerRejected429Body)) ∧
    lookupKey workerRejected429Body "retryAfter" = none := by
  refine ⟨?_, ?_, by decide⟩
  case refine_2 =>
    intro i h
    have hstep : workerRateLimitMiddleware limit window wst cfIp t0 =
        (.next, setKey wst ("rate:" ++ workerClientKey cfIp) ⟨1, t0 + window⟩) := by
      simp [workerRateLimitMiddleware, workerCheckRateLimitStep, hwfresh,
        Nat.not_le.mpr hlimit]
    match i with
    | 0 =>
      have hhead : (runWorkerRequests limit window cfIp wst (t0 :: rest)).get ⟨0, h⟩
          = WorkerAdmit.next := by
        simp [runWorkerRequests, hstep]
      rw [hhead, if_pos (by omega)]
    | i + 1 =>
      have h' : i < (runWorkerRequests limit window cfIp
          (setKey wst ("rate:" ++ workerClientKey cfIp) ⟨1, t0 + window⟩) rest).length := by
        have := h
        simp [runWorkerRequests, hstep] at this ⊢
        omega
      have hrec := runWorkerRequests_spec limit window cfIp t0 rest 1 (t0 + window)
        (setKey wst ("rate:" ++ workerClientKey cfIp) ⟨1, t0 + window⟩)
        (lookupKey_setKey wst ("rate:" ++ workerClientKey cfIp) ⟨1, t0 + window⟩)
        (by omega) hin i h'
      have hshift : ((runWorkerRequests limit window cfIp wst (t0 :: rest)).get ⟨i + 1, h⟩)
          = (runWorkerRequests limit window cfIp
              (setKey wst ("rate:" ++ workerClientKey cfIp) ⟨1, t0 + window⟩) rest).get
              ⟨i, h'⟩ := by
        simp [runWorkerRequests, hstep]
      rw [hshift, hrec]
      by_cases hlt : 1 + i < limit
      · rw [if_pos hlt, if_pos (by omega)]
      · rw [if_neg hlt, if_neg (by omega)]
  intro i h
  have hstep : rateLimitStep limit window m ip t0 =
      (⟨true, none⟩, setEntry m ip ⟨1, t0 + window⟩) := by
    simp [rateLimitStep, hfresh]
  match i with
  | 0 =>
    refine ⟨by simp [runRequests, hstep]; omega, fun hle => ?_⟩
    omega
  | i + 1 =>
    have h' : i < (runRequests limit window ip (setEntry m ip ⟨1, t0 + window⟩) rest).length := by
      have := h
      simp [runRequests, hstep] at this ⊢
      omega
    have := runRequests_spec limit window ip t0 rest 1 (setEntry m ip ⟨1, t0 + window⟩)
      (lookupEntry_setEntry m ip ⟨1, t0 + window⟩) (fun u hu => (hin u hu).2) i h'
    constructor
    · constructor
      · intro hall
        have := this.1.mp (by simpa [runRequests, hstep] using hall)
        omega
      · intro hlt
        have := this.1.mpr (by omega)
        simpa [runRequests, hstep] using this
    · intro hle
      obtain ⟨r, hr, hrpos⟩ := this.2 (by omega)
      exact ⟨r, by simpa [runRequests, hstep] using hr, hrpos⟩

/-- C1 counterexample: for part_002's `rateLimitMiddleware` with limit 2,
three serialized requests from the same identity within one window are
admitted, admitted, rejected — and the 429 rejection's JSON body has no
retry-after value (its only field is `error`), refuting "each of the
remaining N − L is rejected with a positive retry-after value" for that
cited implementation. -/
theorem worker_reject_carries_no_retry_after :
    runWorkerRequests 2 3600 (some "203.0.113.7") [] [0, 10, 20]
      = [WorkerAdmit.next, WorkerAdmit.next,
         WorkerAdmit.rejected429 workerRejected429Body] ∧
    lookupKey workerRejected429Body "retryAfter" = none := by
  decide

/-- Witness for C1 (amended): limit 2, window 60000, four serialized
requests at times 0, 10, 20, 30.  server.js: requests 1 and 2 admitted,
request 3 rejected, request 4 carrying the positive retry-after 60; worker:
request 4 rejected with the bare error body, which has no retry-after
field. -/
theorem rateLimit_first_L_admitted_rest_rejected_witness :
    (((runRequests 2 60000 "203.0.113.7" [] [0, 10, 20, 30]).get ⟨0, by decide⟩).allowed = true
        ↔ (0 : Nat) < 2) ∧
    (((runRequests 2 60000 "203.0.113.7" [] [0, 10, 20, 30]).get ⟨2, by decide⟩).allowed = true
        ↔ (2 : Nat) < 2) ∧
    ((runRequests 2 60000 "203.0.113.7" [] [0, 10, 20, 30]).get ⟨3, by decide⟩).retryAfter
      = some 60 ∧
    ((runWorkerRequests 2 60000 (some "203.0.113.7") [] [0, 10, 20, 30]).get ⟨3, by decide⟩
      = WorkerAdmit.rejected429 workerRejected429Body) ∧
    lookupKey workerRejected429Body "retryAfter" = none := by
  obtain ⟨hsrv, hwrk, hbody⟩ := rateLimit_first_L_admitted_rest_rejected 2 60000 "203.0.113.7"
    [] 0 [10, 20, 30] (some "203.0.113.7") [] (by decide) (by decide) (by decide) (by decide)
  refine ⟨(hsrv 0 (by decide)).1, (hsrv 2 (by decide)).1, by decide,
    by rw [hwrk 3 (by decide)]; decide, hbody⟩

/-- C7: After a window boundary is crossed, the rate-limit counter resets: a
request arriving just after `windowResetAt` is admitted even if the prior
window's count had reached the limit, and the counter restarts at 1 with a
fresh window. -/
theorem rateLimit_window_reset_admits
    (limit window : Nat) (ip : String) (m : RateMap) (c rt now : Nat)
    (hlook : lookupEntry m ip = some ⟨c, rt⟩) (_hexhausted : limit ≤ c)
    (hafter : rt < now) :
    (rateLimitStep limit window m ip now).1.allowed = true ∧
    lookupEntry (rateLimitStep limit window m ip now).2 ip = some ⟨1, now + window⟩ := by
  simp [rateLimitStep, hlook, hafter, lookupEntry_setEntry]

/-- Witness for C7: a counter at the limit (20 of 20) with reset time 60000
is reset and admitted for a request at time 60001. -/
theorem rateLimit_window_reset_admits_witness :
    (rateLimitStep 20 60000 [("203.0.113.7", ⟨20, 60000⟩)] "203.0.113.7" 60001).1.allowed = true ∧
    lookupEntry (rateLimitStep 20 60000 [("203.0.113.7", ⟨20, 60000⟩)] "203.0.113.7" 60001).2
      "203.0.113.7" = some ⟨1, 60001 + 60000⟩ :=
  rateLimit_window_reset_admits 20 60000 "203.0.113.7" [("203.0.113.7", ⟨20, 60000⟩)]
    20 60000 60001 (by decide) (by decide) (by decide)

/-- `rateLimitMiddleware` on a client with no live counter: create a fresh
window and admit. -/
theorem rateLimitStep_fresh (limit window : Nat) (m : RateMap) (ip : String) (now : Nat)
    (hlook : lookupEntry m ip = none) :
    rateLimitStep limit window m ip now = (⟨true, none⟩, setEntry m ip ⟨1, now + window⟩) := by
  simp [rateLimitStep, hlook]

/-- `rateLimitMiddleware` on a live under-limit counter: increment and admit. -/
theorem rateLimitStep_increments (limit window : Nat) (m : RateMap) (ip : String)
    (now c rt : Nat) (hlook : lookupEntry m ip = some ⟨c, rt⟩) (hno : ¬ rt < now)
    (hc : c < limit) :
    rateLimitStep limit window m ip now = (⟨true, none⟩, setEntry m ip ⟨c + 1, rt⟩) := by
  simp [rateLimitStep, hlook, hno, Nat.not_le.mpr hc]

/-- C10: Every request lacking a client-IP header is rate-limited under the
single shared identity key "unknown": two such requests in the same window
increment the same counter (here: the shared counter reaches 2 after two
header-less requests), regardless of their true origin. -/
theorem missing_ip_shares_unknown_counter
    (limit window t1 t2 : Nat) (m : RateMap)
    (hfresh : lookupEntry m (workerClientKey none) = none)
    (hlimit : 2 ≤ limit) (hwin : t2 ≤ t1 + window) :
    workerClientKey none = "unknown" ∧
    expressClientKey none none = "unknown" ∧
    (rateLimitStep limit window m (workerClientKey none) t1).1.allowed = true ∧
    (rateLimitStep limit window
        (rateLimitStep limit window m (workerClientKey none) t1).2
        (workerClientKey none) t2).1.allowed = true ∧
    lookupEntry (rateLimitStep limit window
        (rateLimitStep limit window m (workerClientKey none) t1).2
        (workerClientKey none) t2).2 "unknown" = some ⟨2, t1 + window⟩ := by
  have hkey : workerClientKey none = "unknown" := rfl
  rw [hkey] at hfresh ⊢
  have h1 := rateLimitStep_fresh limit window m "unknown" t1 hfresh
  have h2 := rateLimitStep_increments limit window
      (setEntry m "unknown" ⟨1, t1 + window⟩) "unknown" t2 1 (t1 + window)
      (lookupEntry_setEntry m "unknown" ⟨1, t1 + window⟩) (by omega) (by omega)
  refine ⟨rfl, rfl, by simp [h1], ?_, ?_⟩
  · simp only [h1]
    simp [h2]
  · simp only [h1]
    simp [h2, lookupEntry_setEntry]

/-- Witness for C10: two requests with no IP header at times 5 and 10 in a
60000 ms window with limit 20 both hit the key "unknown" and leave its
counter at 2. -/
theorem missing_ip_shares_unknown_counter_witness :
    workerClientKey none = "unknown" ∧
    expressClientKey none none = "unknown" ∧
    (rateLimitStep 20 60000 [] (workerClientKey none) 5).1.allowed = true ∧
    (rateLimitStep 20 60000
        (rateLimitStep 20 60000 [] (workerClientKey none) 5).2
        (workerClientKey none) 10).1.allowed = true ∧
    lookupEntry (rateLimitStep 20 60000
        (rateLimitStep 20 60000 [] (workerClientKey none) 5).2
        (workerClientKey none) 10).2 "unknown" = some ⟨2, 5 + 60000⟩ :=
  missing_ip_shares_unknown_counter 20 60000 5 10 [] (by decide) (by decide) (by decide)

/-! ## Theorems: config cache (C4, C8) -/

/-- C4: `ConfigCache.get` called twice for the same chatbot id within the
TTL, with no intervening invalidate, returns identical values; a get after
invalidate or after TTL expiry re-queries the source-of-truth store (its
answer is exactly the store's answer); and the chatbot-update operation
deletes the cache entry after the source-of-truth write. -/
theorem configCache_get_invalidate_update
    (st stInv stExp : CacheStore) (db : ChatbotDb) (id : String)
    (t1 t2 t3 t4 : Nat) (e : CacheEntry) (newRow : ChatbotRow)
    (hcold : lookupKey st ("chatbot:" ++ id) = none)
    (hwithin : t2 < t1 + 60)
    (hexp : lookupKey stExp ("chatbot:" ++ id) = some e) (hexpired : e.expiresAt ≤ t3) :
    ((publicChatbotConfig true (publicChatbotConfig true st db id t1).2 db id t2).1
      = (publicChatbotConfig true st db id t1).1) ∧
    ((publicChatbotConfig true (deleteKey stInv ("chatbot:" ++ id)) db id t4).1
      = dbAnswer db id) ∧
    ((publicChatbotConfig true stExp db id t3).1 = dbAnswer db id) ∧
    (lookupKey (updateChatbot stInv db id newRow).2 ("chatbot:" ++ id) = none) ∧
    ((updateChatbot stInv db id newRow).1 id = some newRow) ∧
    (putChatbotEffectOrder.indexOf PutChatbotStep.dbWrite
       < putChatbotEffectOrder.indexOf PutChatbotStep.cacheDelete) := by
  refine ⟨?_, ?_, ?_, ?_, ?_, ?_⟩
  · cases hdb : db id with
    | none => simp [publicChatbotConfig, getFromCache, hcold, hdb]
    | some row =>
      by_cases hdep : row.is_deployed
      · simp [publicChatbotConfig, getFromCache, setCache, hcold, hdb, hdep,
          lookupKey_setKey, hwithin]
      · simp [publicChatbotConfig, getFromCache, hcold, hdb, hdep]
  · cases hdb : db id with
    | none => simp [publicChatbotConfig, getFromCache, dbAnswer, lookupKey_deleteKey, hdb]
    | some row =>
      by_cases hdep : row.is_deployed <;>
        simp [publicChatbotConfig, getFromCache, dbAnswer, lookupKey_deleteKey, hdb, hdep]
  · have hmiss : getFromCache true stExp ("chatbot:" ++ id) t3 = none := by
      simp [getFromCache, hexp, Nat.not_lt.mpr hexpired]
    cases hdb : db id with
    | none => simp [publicChatbotConfig, dbAnswer, hmiss, hdb]
    | some row =>
      by_cases hdep : row.is_deployed <;> simp [publicChatbotConfig, dbAnswer, hmiss, hdb, hdep]
  · exact lookupKey_deleteKey _ _
  · simp [updateChatbot]
  · decide

/-- Witness for C4: a deployed demo chatbot, gets at times 100 and 130
against a cold cache, an invalidated and an expired cache state, and a
concrete update. -/
theorem configCache_get_invalidate_update_witness :
    ((publicChatbotConfig true
        (publicChatbotConfig true []
          (fun i => if i = "cb_demo01abc" then some ⟨"Demo", "#667eea", "Hi!", true⟩ else none)
          "cb_demo01abc" 100).2
        (fun i => if i = "cb_demo01abc" then some ⟨"Demo", "#667eea", "Hi!", true⟩ else none)
        "cb_demo01abc" 130).1
      = (publicChatbotConfig true []
          (fun i => if i = "cb_demo01abc" then some ⟨"Demo", "#667eea", "Hi!", true⟩ else none)
          "cb_demo01abc" 100).1) ∧
    ((publicChatbotConfig true (deleteKey [("chatbot:cb_demo01abc", ⟨⟨"Old", "#000000", "Old!"⟩, 500⟩)] ("chatbot:" ++ "cb_demo01abc"))
        (fun i => if i = "cb_demo01abc" then some ⟨"Demo", "#667eea", "Hi!", true⟩ else none)
        "cb_demo01abc" 700).1
      = dbAnswer
          (fun i => if i = "cb_demo01abc" then some ⟨"Demo", "#667eea", "Hi!", true⟩ else none)
          "cb_demo01abc") ∧
    ((publicChatbotConfig true [("chatbot:cb_demo01abc", ⟨⟨"Old", "#000000", "Old!"⟩, 150⟩)]
        (fun i => if i = "cb_demo01abc" then some ⟨"Demo", "#667eea", "Hi!", true⟩ else none)
        "cb_demo01abc" 150).1
      = dbAnswer
          (fun i => if i = "cb_demo01abc" then some ⟨"Demo", "#667eea", "Hi!", true⟩ else none)
          "cb_demo01abc") ∧
    (lookupKey (updateChatbot [("chatbot:cb_demo01abc", ⟨⟨"Old", "#000000", "Old!"⟩, 500⟩)]
        (fun i => if i = "cb_demo01abc" then some ⟨"Demo", "#667eea", "Hi!", true⟩ else none)
        "cb_demo01abc" ⟨"New", "#ffffff", "Hello!", true⟩).2 ("chatbot:" ++ "cb_demo01abc") = none) ∧
    ((updateChatbot [("chatbot:cb_demo01abc", ⟨⟨"Old", "#000000", "Old!"⟩, 500⟩)]
        (fun i => if i = "cb_demo01abc" then some ⟨"Demo", "#667eea", "Hi!", true⟩ else none)
        "cb_demo01abc" ⟨"New", "#ffffff", "Hello!", true⟩).1 "cb_demo01abc"
      = some ⟨"New", "#ffffff", "Hello!", true⟩) ∧
    (putChatbotEffectOrder.indexOf PutChatbotStep.dbWrite
       < putChatbotEffectOrder.indexOf PutChatbotStep.cacheDelete) :=
  configCache_get_invalidate_update
    [] [("chatbot:cb_demo01abc", ⟨⟨"Old", "#000000", "Old!"⟩, 500⟩)]
    [("chatbot:cb_demo01abc", ⟨⟨"Old", "#000000", "Old!"⟩, 150⟩)]
    (fun i => if i = "cb_demo01abc" then some ⟨"Demo", "#667eea", "Hi!", true⟩ else none)
    "cb_demo01abc" 100 130 150 700 ⟨⟨"Old", "#000000", "Old!"⟩, 150⟩
    ⟨"New", "#ffffff", "Hello!", true⟩ rfl (by omega) rfl (by decide)

/-- C8: When the counter store or cache store raises an error, the operation
still succeeds for the caller: `checkRateLimit` returns allowed (fail open)
both when the counter read throws and when the counter write throws, and the
public-config read with an erroring cache store answers exactly what the
source-of-truth store answers, leaves the cache untouched (the cache write
is skipped), and surfaces no store error. -/
theorem store_errors_fail_open
    (limit : Nat) (readErr writeErr : String) (cur : Option Nat)
    (putRes : Except String Unit) (st : CacheStore) (db : ChatbotDb) (id : String)
    (now : Nat) (hunder : cur.getD 0 < limit) :
    checkRateLimit limit (.error readErr) putRes = true ∧
    checkRateLimit limit (.ok cur) (.error writeErr) = true ∧
    (publicChatbotConfig false st db id now).1 = dbAnswer db id ∧
    (publicChatbotConfig false st db id now).2 = st := by
  refine ⟨rfl, ?_, ?_, ?_⟩
  · simp [checkRateLimit, Nat.not_le.mpr hunder]
  · cases hdb : db id with
    | none => simp [publicChatbotConfig, getFromCache, dbAnswer, hdb]
    | some row =>
      by_cases hdep : row.is_deployed <;>
        simp [publicChatbotConfig, getFromCache, setCache, dbAnswer, hdb, hdep]
  · cases hdb : db id with
    | none => simp [publicChatbotConfig, getFromCache, hdb]
    | some row =>
      by_cases hdep : row.is_deployed <;>
        simp [publicChatbotConfig, getFromCache, setCache, hdb, hdep]

/-- Witness for C8: an unreachable counter store admits a request under
limit 50, and a public-config read for a deployed chatbot with an erroring
cache store returns the database row's fields with the cache untouched. -/
theorem store_errors_fail_open_witness :
    checkRateLimit 50 (.error "KV unavailable") (.ok ()) = true ∧
    checkRateLimit 50 (.ok (some 3)) (.error "KV unavailable") = true ∧
    (publicChatbotConfig false []
        (fun i => if i = "cb_demo01abc" then some ⟨"Demo", "#667eea", "Hi!", true⟩ else none)
        "cb_demo01abc" 100).1
      = dbAnswer
          (fun i => if i = "cb_demo01abc" then some ⟨"Demo", "#667eea", "Hi!", true⟩ else none)
          "cb_demo01abc" ∧
    (publicChatbotConfig false []
        (fun i => if i = "cb_demo01abc" then some ⟨"Demo", "#667eea", "Hi!", true⟩ else none)
        "cb_demo01abc" 100).2 = [] :=
  store_errors_fail_open 50 "KV unavailable" "KV unavailable" (some 3) (.ok ()) []
    (fun i => if i = "cb_demo01abc" then some ⟨"Demo", "#667eea", "Hi!", true⟩ else none)
    "cb_demo01abc" 100 (by decide)

/-! ## Theorems: session ledger and chat endpoint (C2, C3, C5, C6, C9) -/

theorem any_iff_filter_pos {α : Type} (p : α → Bool) (l : List α) :
    l.any p = true ↔ 0 < (l.filter p).length := by
  induction l with
  | nil => simp
  | cons a l ih => by_cases h : p a <;> simp [List.filter_cons, h, ih]

theorem length_filter_map_eq {α : Type} (p : α → Bool) (f : α → α)
    (hf : ∀ a, p (f a) = p a) (l : List α) :
    ((l.map f).filter p).length = (l.filter p).length := by
  induction l with
  | nil => rfl
  | cons a l ih =>
    by_cases h : p a <;> simp [List.filter_cons, hf, h, ih]

/-- The session upsert leaves the number of rows for `sid` unchanged when one
exists and adds exactly one otherwise. -/
theorem upsertSession_count (tbl : List SessionRow) (cb sid : String)
    (ip ua : Option String) (t : Nat) :
    (sessionRows (upsertSession tbl cb sid ip ua t) sid).length =
      if tbl.any (fun r => r.session_id == sid) then (sessionRows tbl sid).length
      else (sessionRows tbl sid).length + 1 := by
  by_cases h : tbl.any (fun r => r.session_id == sid)
  · rw [if_pos h]
    unfold upsertSession
    rw [if_pos h]
    unfold sessionRows
    apply length_filter_map_eq
    intro r
    by_cases hr : r.session_id == sid <;> simp [hr]
  · rw [if_neg h]
    unfold upsertSession
    rw [if_neg h]
    unfold sessionRows
    simp [List.filter_append, List.filter_cons]

/-- `any` for a session id, phrased over `sessionRows`. -/
theorem any_iff_sessionRows_pos (tbl : List SessionRow) (sid : String) :
    tbl.any (fun r => r.session_id == sid) = true ↔ 0 < (sessionRows tbl sid).length :=
  any_iff_filter_pos _ _

/-- On conflict, the session upsert maps a matching row to the row with
`chatbot_id`, `ip_address`, `user_agent` and `started_at` overwritten. -/
theorem mem_upsertSession_update (tbl : List SessionRow) (cb sid : String)
    (ip ua : Option String) (t : Nat) (r : SessionRow)
    (hr : r ∈ tbl) (hrs : r.session_id = sid) :
    ({ r with chatbot_id := cb, ip_address := ip, user_agent := ua, started_at := t }
        : SessionRow) ∈ upsertSession tbl cb sid ip ua t ∧
    ({ r with chatbot_id := cb, ip_address := ip, user_agent := ua, started_at := t }
        : SessionRow).session_id = sid := by
  have hbeq : (r.session_id == sid) = true := by simp [hrs]
  have hany : tbl.any (fun x => x.session_id == sid) = true :=
    List.any_eq_true.mpr ⟨r, hr, hbeq⟩
  constructor
  · unfold upsertSession
    rw [if_pos hany]
    have hmem := List.mem_map_of_mem (fun x : SessionRow =>
      if x.session_id == sid then
        ({ x with chatbot_id := cb, ip_address := ip, user_agent := ua, started_at := t }
          : SessionRow)
      else x) hr
    simpa [hbeq] using hmem
  · simpa using hrs

/-- C2 (amended): calling the chat endpoint's session upsert twice with the
same candidate session id leaves exactly one Session row for that id (given
the store's uniqueness invariant), and when a session id is supplied the
endpoint resolves to it; but on an existing row the upsert is
`ON CONFLICT (session_id) DO UPDATE`: it overwrites `chatbot_id`,
`ip_address`, `user_agent` and `started_at` (preserving only `ended_at`,
`message_count` and `satisfaction_rating`), so the row is not unchanged. -/
theorem session_upsert_one_row_fields
    (tbl : List SessionRow) (cb sid gen : String) (ip1 ua1 ip2 ua2 : Option String)
    (t1 t2 : Nat) (hsid : sid ≠ "")
    (huniq : (sessionRows tbl sid).length ≤ 1) :
    (sessionRows
        (upsertSession (upsertSession tbl cb sid ip1 ua1 t1) cb sid ip2 ua2 t2) sid).length
      = 1 ∧
    jsOrString (some sid) gen = sid ∧
    (∀ r ∈ tbl, r.session_id = sid →
      ({ r with chatbot_id := cb, ip_address := ip2, user_agent := ua2, started_at := t2 }
          : SessionRow)
        ∈ upsertSession (upsertSession tbl cb sid ip1 ua1 t1) cb sid ip2 ua2 t2) := by
  have h1 : (sessionRows (upsertSession tbl cb sid ip1 ua1 t1) sid).length = 1 := by
    rw [upsertSession_count]
    by_cases h : tbl.any (fun r => r.session_id == sid)
    · rw [if_pos h]
      have hpos := (any_iff_sessionRows_pos tbl sid).mp h
      omega
    · rw [if_neg h]
      have hzero : ¬ 0 < (sessionRows tbl sid).length :=
        fun hpos => h ((any_iff_sessionRows_pos tbl sid).mpr hpos)
      omega
  refine ⟨?_, by simp [jsOrString, hsid], ?_⟩
  · rw [upsertSession_count, if_pos ((any_iff_sessionRows_pos _ sid).mpr (by omega))]
    exact h1
  · intro r hr hrs
    obtain ⟨hm1, hs1⟩ := mem_upsertSession_update tbl cb sid ip1 ua1 t1 r hr hrs
    exact (mem_upsertSession_update _ cb sid ip2 ua2 t2 _ hm1 hs1).1

/-- C2 counterexample: a second upsert for an existing, non-ended session of
the same chatbot does not leave the Session row unchanged — `started_at`
moves from 100 to 200. -/
theorem session_upsert_not_unchanged :
    upsertSession [⟨"cb_demo01abc", "sess_1", none, none, 100, none, 3, none⟩]
      "cb_demo01abc" "sess_1" none none 200
      ≠ [⟨"cb_demo01abc", "sess_1", none, none, 100, none, 3, none⟩] := by
  decide

/-- Witness for C2 (amended): one pre-existing row; two upserts leave one
row, the candidate id is returned, and the surviving row has `started_at`
200 with `message_count` 3 preserved. -/
theorem session_upsert_one_row_fields_witness :
    (sessionRows
        (upsertSession
          (upsertSession [⟨"cb_demo01abc", "sess_1", none, none, 100, none, 3, none⟩]
            "cb_demo01abc" "sess_1" none none 150)
          "cb_demo01abc" "sess_1" (some "203.0.113.7") none 200) "sess_1").length = 1 ∧
    jsOrString (some "sess_1") "gen_x" = "sess_1" ∧
    (⟨"cb_demo01abc", "sess_1", some "203.0.113.7", none, 200, none, 3, none⟩ : SessionRow)
      ∈ upsertSession
          (upsertSession [⟨"cb_demo01abc", "sess_1", none, none, 100, none, 3, none⟩]
            "cb_demo01abc" "sess_1" none none 150)
          "cb_demo01abc" "sess_1" (some "203.0.113.7") none 200 := by
  obtain ⟨h1, h2, h3⟩ := session_upsert_one_row_fields
    [⟨"cb_demo01abc", "sess_1", none, none, 100, none, 3, none⟩]
    "cb_demo01abc" "sess_1" "gen_x" none none (some "203.0.113.7") none 150 200
    (by decide) (by decide)
  exact ⟨h1, h2, h3 ⟨"cb_demo01abc", "sess_1", none, none, 100, none, 3, none⟩
    (by simp) rfl⟩

/-- C3 (code-bug evidence): a chat request to a chatbot with zero documents
and message "hello" returns status 200 with the fixed apology string and the
generated session id — but the Session's `message_count` after the round
trip is 0, not 1: the `increment_session_messages` rpc is invoked only on
the with-documents path. -/
theorem chat_no_documents_apology_and_count :
    (chatHandler [] [] [] "cb_demo01" "hello" none "session_17_a1b" none none 1000 5 "").1
      = ⟨200, some apologyMessage, some "session_17_a1b"⟩ ∧
    ((chatHandler [] [] [] "cb_demo01" "hello" none "session_17_a1b" none none 1000 5 "").2.1).map
      (fun r => (r.session_id, r.message_count)) = [("session_17_a1b", 0)] := by
  decide

/-- C5 counterexample: a client state whose persisted record is stale
(`now − lastActivityAt = inactivityTimeout`) still holds the old session id,
and a send from that state — which runs before the periodic expiry check —
attaches that id; the server's `sessionId || generated` then resolves to the
old id, not a new one. -/
theorem stale_session_reused_before_tick :
    isSessionValid ⟨some "sess_old", some 0, false⟩ sessionTimeout = false ∧
    jsOrString (⟨some "sess_old", some 0, false⟩ : ClientState).currentSessionId "sess_new"
      = "sess_old" := by
  decide

/-- C5 (amended): staleness is enforced by the widget's periodic expiry
check, not at send time: once the check has run at a time `t` with
`t − lastActivityAt ≥ inactivityTimeout` (and the expiry notice was not
already shown), the persisted record is cleared, so a subsequent send
attaches no session id and resolves to the freshly generated one; a send
issued after the timeout but before that check still attaches the old id. -/
theorem stale_session_cleared_by_tick
    (sid : String) (last t : Nat) (gen : String)
    (hsid : sid ≠ "") (hstale : sessionTimeout ≤ t - last) (hgen : gen ≠ sid) :
    (expiryTick ⟨some sid, some last, false⟩ t).currentSessionId = none ∧
    jsOrString (expiryTick ⟨some sid, some last, false⟩ t).currentSessionId gen = gen ∧
    gen ≠ sid ∧
    jsOrString (⟨some sid, some last, false⟩ : ClientState).currentSessionId gen = sid := by
  have hvalid : isSessionValid ⟨some sid, some last, false⟩ t = false := by
    simp [isSessionValid, decide_eq_false_iff_not]
    omega
  have htruthy : jsTruthyStr (some sid) = true := by
    simp [jsTruthyStr, hsid]
  refine ⟨?_, ?_, hgen, by simp [jsOrString, hsid]⟩
  · simp [expiryTick, htruthy, hvalid]
  · simp [expiryTick, htruthy, hvalid, jsOrString]

/-- Witness for C5 (amended): a session last active at time 0, checked at
the 30-minute mark, is cleared; the next send resolves to the generated id
"sess_new", while a pre-check send would still attach "sess_old". -/
theorem stale_session_cleared_by_tick_witness :
    (expiryTick ⟨some "sess_old", some 0, false⟩ sessionTimeout).currentSessionId = none ∧
    jsOrString (expiryTick ⟨some "sess_old", some 0, false⟩ sessionTimeout).currentSessionId
      "sess_new" = "sess_new" ∧
    "sess_new" ≠ "sess_old" ∧
    jsOrString (⟨some "sess_old", some 0, false⟩ : ClientState).currentSessionId "sess_new"
      = "sess_old" :=
  stale_session_cleared_by_tick "sess_old" 0 sessionTimeout "sess_new"
    (by decide) (by omega) (by decide)

/-- C6: the feedback endpoint, for a valid request (`0 ≤ rating ≤ 5`,
non-empty session id), acknowledges with 200; every row with that session id
gets `ended_at = now`; and the matching row's `satisfaction_rating` becomes
the rating exactly when `1 ≤ rating` (with `rating ≤ 5` given), and is left
as it was — in particular unset — when the rating is 0. -/
theorem endSession_sets_endedAt_stores_rating_iff
    (tbl : List SessionRow) (sid : String) (rating : Int) (now : Nat)
    (hsid : sid ≠ "") (h0 : 0 ≤ rating) (h5 : rating ≤ 5) :
    (feedbackHandler tbl sid rating now).1 = 200 ∧
    (∀ r ∈ (feedbackHandler tbl sid rating now).2, r.session_id = sid →
        r.ended_at = some now) ∧
    (∀ r ∈ tbl, r.session_id = sid →
      ∃ r' ∈ (feedbackHandler tbl sid rating now).2,
        r'.ended_at = some now ∧
        r'.satisfaction_rating = if 1 ≤ rating then some rating else r.satisfaction_rating) := by
  have hcond : ¬ (sid = "" ∨ rating < 0 ∨ 5 < rating) := by
    push_neg
    exact ⟨hsid, by omega, by omega⟩
  refine ⟨by simp [feedbackHandler, hcond], ?_, ?_⟩
  · intro r hmem hrs
    rw [feedbackHandler, if_neg hcond] at hmem
    simp only at hmem
    obtain ⟨x, hx, hfx⟩ := List.mem_map.mp hmem
    by_cases hb : (x.session_id == sid) = true
    · by_cases hrange : 1 ≤ rating ∧ rating ≤ 5 <;>
        simp [← hfx, hb, hrange]
    · exfalso
      rw [← hfx] at hrs
      simp [hb] at hrs
      exact hb (by simp [hrs])
  · intro r hmem hrs
    have hb : (r.session_id == sid) = true := by simp [hrs]
    rw [feedbackHandler, if_neg hcond]
    simp only
    by_cases h1 : 1 ≤ rating
    · refine ⟨{ r with ended_at := some now, satisfaction_rating := some rating }, ?_, ?_, ?_⟩
      · have hmap := List.mem_map_of_mem (fun x : SessionRow =>
          if x.session_id == sid then
            if 1 ≤ rating ∧ rating ≤ 5 then
              { x with ended_at := some now, satisfaction_rating := some rating }
            else { x with ended_at := some now }
          else x) hmem
        simpa [hb, h1, h5] using hmap
      · rfl
      · simp [h1]
    · refine ⟨{ r with ended_at := some now }, ?_, ?_, ?_⟩
      · have hmap := List.mem_map_of_mem (fun x : SessionRow =>
          if x.session_id == sid then
            if 1 ≤ rating ∧ rating ≤ 5 then
              { x with ended_at := some now, satisfaction_rating := some rating }
            else { x with ended_at := some now }
          else x) hmem
        simpa [hb, h1] using hmap
      · rfl
      · simp [h1]

/-- Witness for C6: ending session "sess_1" with rating 0 acknowledges and
leaves `satisfaction_rating` unset, ending with rating 4 stores 4; both set
`ended_at`. -/
theorem endSession_sets_endedAt_stores_rating_iff_witness :
    (feedbackHandler [⟨"cb_demo01abc", "sess_1", none, none, 100, none, 3, none⟩]
        "sess_1" 0 999).1 = 200 ∧
    (feedbackHandler [⟨"cb_demo01abc", "sess_1", none, none, 100, none, 3, none⟩]
        "sess_1" 0 999).2
      = [⟨"cb_demo01abc", "sess_1", none, none, 100, some 999, 3, none⟩] ∧
    (feedbackHandler [⟨"cb_demo01abc", "sess_1", none, none, 100, none, 3, none⟩]
        "sess_1" 4 999).2
      = [⟨"cb_demo01abc", "sess_1", none, none, 100, some 999, 3, some 4⟩] := by
  refine ⟨(endSession_sets_endedAt_stores_rating_iff
    [⟨"cb_demo01abc", "sess_1", none, none, 100, none, 3, none⟩]
    "sess_1" 0 999 (by decide) (by decide) (by decide)).1, by decide, by decide⟩

set_option maxRecDepth 8000

/-- C9: for every chat request the message is entity-escaped and truncated to
1000 characters by `sanitizeInput` before the 500-character limit is checked:
the request is rejected as too long exactly when the sanitized text exceeds
500 characters; a raw message of 150 `<` characters (length 150 < 500)
sanitizes to 600 characters and is therefore rejected; and an accepted
message is stored as its sanitized form, which can differ from what the
client sent (e.g. "a&b"). -/
theorem sanitize_before_length_check
    (sessions : List SessionRow) (convs : List ConvRow) (docs : List String)
    (cb m : String) (sidp : Option String) (gen : String) (ip ua : Option String)
    (now el : Nat) (llm : String) (hcb : cb ≠ "") (hm : m ≠ "") :
    ((chatHandler sessions convs docs cb m sidp gen ip ua now el llm).1.status = 400
      ↔ 500 < (sanitizeInput m).length) ∧
    ((String.mk (List.replicate 150 (Char.ofNat 60))).length < 500 ∧
      500 < (sanitizeInput (String.mk (List.replicate 150 (Char.ofNat 60)))).length) ∧
    (sanitizeInput "a&b" ≠ "a&b" ∧ ¬ 500 < (sanitizeInput "a&b").length) ∧
    (¬ 500 < (sanitizeInput m).length →
      ((chatHandler sessions convs docs cb m sidp gen ip ua now el llm).2.2.drop
          convs.length).map (fun c => c.message)
        = [some (sanitizeInput m), none]) := by
  have hne : ¬ (cb = "" ∨ m = "") := by simp [hcb, hm]
  refine ⟨?_, ?_, ?_, ?_⟩
  · by_cases hlen : 500 < (sanitizeInput m).length
    · simp [chatHandler, hne, hlen]
    · by_cases hdocs : docs.isEmpty <;> simp [chatHandler, hne, hlen, hdocs]
  · exact ⟨by decide, by decide⟩
  · exact ⟨by decide, by decide⟩
  · intro hlen
    by_cases hdocs : docs.isEmpty <;>
      simp [chatHandler, hne, hlen, hdocs, List.drop_left]

/-- Witness for C9: the message "a&b" is accepted, and the stored user row
holds the escaped form "a&amp;b", not the original. -/
theorem sanitize_before_length_check_witness :
    ((chatHandler [] [] ["doc one"] "cb_demo01" "a&b" none "gen_1" none none 5 7 "ok").1.status
        = 400 ↔ 500 < (sanitizeInput "a&b").length) ∧
    ((chatHandler [] [] ["doc one"] "cb_demo01" "a&b" none "gen_1" none none 5 7
        "ok").2.2.drop 0).map (fun c => c.message) = [some (sanitizeInput "a&b"), none] := by
  obtain ⟨h1, _h2, h3, h4⟩ := sanitize_before_length_check [] [] ["doc one"] "cb_demo01" "a&b"
    none "gen_1" none none 5 7 "ok" (by decide) (by decide)
  exact ⟨h1, h4 h3.2⟩

end ChatbotVerif
